import Mathlib

/-!
Verification of the MATLAB MCP server's engine-session shim
(`src/matlab_mcp_server/engine.py`), command dispatch
(`src/matlab_mcp_server/tools.py`) and CLI (`src/matlab_mcp_server/cli.py`),
as a shallow embedding: the vendor `matlab.engine` library is modelled as an
oracle (`VendorApi`), shim state (`_engine`, `_is_shared`, `_session_name`)
as an explicit record, and every shim method as a function returning the
list of engine interactions it performed (the trace), the post state, and
either a result or a raised exception.
-/

namespace MatlabMCP

/-- Character 39, a single quote; used to build MATLAB command strings. -/
def sq : String := String.singleton (Char.ofNat 39)

/-- Values living in the MATLAB workspace (abstracted). -/
inductive MVal where
  | mnum (n : Int)
  | mstr (s : String)
  | mbool (b : Bool)
  deriving Repr, DecidableEq

/-- Captured stdout/stderr of one `engine.eval` call with redirection. -/
structure EvalCapture where
  stdout : String
  stderr : String
  deriving Repr, DecidableEq

/-- Outcome of `self._engine.eval(code, nargout=0, stdout=..., stderr=...)`:
either it returns (with the captured streams), raises
`matlab.engine.MatlabExecutionError`, or raises some other exception. -/
inductive EvalOutcome where
  | ok (cap : EvalCapture)
  | execError (msg : String)
  | otherError (msg : String)
  deriving Repr, DecidableEq

/-- One interaction with the vendor engine library (the trace alphabet). -/
inductive EngineCall where
  | started (h : Nat)
  | startFailed
  | evalCall (h : Nat) (code : String)
  | exprEval (h : Nat) (expr : String)
  | quitCall (h : Nat)
  | connectCall (name : String)
  | wsRead (h : Nat) (var : String)
  | wsWrite (h : Nat) (var : String)
  | whoCall (h : Nat)
  | fnCall (h : Nat) (name : String)
  deriving Repr, DecidableEq

/-- Oracle for the vendor `matlab.engine` library and ambient OS facilities:
each field fixes the outcome the external world would give. Handles are
natural numbers. -/
structure VendorApi where
  /-- module-level `MATLAB_AVAILABLE` flag (import succeeded) -/
  available : Bool
  /-- `matlab.engine.start_matlab` (argument: desktop flag) -/
  startMatlab : Bool → Except String Nat
  /-- `matlab.engine.connect_matlab(name)` -/
  connectMatlab : String → Except String Nat
  /-- `handle.quit()` -/
  quit : Nat → Except String Unit
  /-- `handle.eval(code, nargout=0, stdout=..., stderr=...)` with capture -/
  evalCaptured : Nat → String → EvalOutcome
  /-- `handle.eval(code, nargout=0)` without capture (raises or returns) -/
  evalRaw : Nat → String → Except String Unit
  /-- `handle.eval(expr)` returning a value (e.g. `matlab.engine.engineName`) -/
  evalExpr : Nat → String → Except String String
  /-- `handle.workspace[name]` read -/
  workspaceGet : Nat → String → Except String MVal
  /-- `handle.workspace[name] = v` write -/
  workspaceSet : Nat → String → MVal → Except String Unit
  /-- `getattr(handle, name)(*args, nargout=k)` -/
  callFn : Nat → String → List MVal → Nat → Except String MVal
  /-- `handle.who(nargout=0, stdout=...)`: captured output or exception -/
  who : Nat → Except String String
  /-- `tempfile.mkstemp(suffix=...)`: generated path for a given suffix -/
  mkstemp : String → String
  /-- `json.loads` on a string: parsed value, or `none` on `JSONDecodeError` -/
  jsonLoads : String → Option MVal

/-- Shim state: `engine.py` lines 57-61 (`_engine`, `_is_shared`,
`_session_name`). -/
structure EngineState where
  engine : Option Nat
  isShared : Bool
  sessionName : Option String
  deriving Repr, DecidableEq

/-- Exceptions the shim can raise (engine.py lines 34-51), plus raw vendor
exceptions that propagate uncaught through shim methods. -/
inductive MatlabError where
  | notAvailable (msg : String)
  | connection (msg : String)
  | engineErr (msg : String)
  | pyError (msg : String)
  deriving Repr, DecidableEq

/-- Outcome of running one shim method: engine-interaction trace, post
state, and a result or a raised exception. -/
abbrev MRun (α : Type) := List EngineCall × EngineState × Except MatlabError α

/-- Python truthiness of an optional string (`None` and `""` are falsy). -/
def strTruthy : Option String → Bool
  | none => false
  | some s => s ≠ ""

/-- Python `str.strip()` with no argument: remove leading and trailing
whitespace. -/
def pyStrip (s : String) : String :=
  String.mk (((s.data.dropWhile Char.isWhitespace).reverse.dropWhile
    Char.isWhitespace).reverse)

/-- Python `str.lower()` (ASCII case). -/
def pyLower (s : String) : String :=
  String.mk (s.data.map Char.toLower)

/-- Whether the char list `needle` matches the front of `hay`. -/
def matchesFront : List Char → List Char → Bool
  | [], _ => true
  | _ :: _, [] => false
  | a :: as, b :: bs => a == b && matchesFront as bs

/-- Whether `needle` occurs as a contiguous run inside `hay`. -/
def occursInList (needle : List Char) : List Char → Bool
  | [] => needle.isEmpty
  | c :: tl => matchesFront needle (c :: tl) || occursInList needle tl

/-- Python `needle in hay` on strings. -/
def strContains (hay needle : String) : Bool :=
  occursInList needle.data hay.data

/-- The message of engine.py line 77 (abridged first line; the source
continues with install instructions irrelevant to control flow). -/
def notInstalledMsg : String := "MATLAB Engine for Python is not installed"

/-- Models the `start` method, engine.py lines 63-99: raise if the vendor
library is absent; no-op if a handle exists; else `start_matlab`, storing
the handle, raising `MatlabConnectionError` on failure. -/
def start (api : VendorApi) (s : EngineState) (desktop : Bool) : MRun Unit :=
  if !api.available then
    ([], s, .error (.notAvailable notInstalledMsg))
  else
    match s.engine with
    | some _ => ([], s, .ok ())
    | none =>
      match api.startMatlab desktop with
      | .ok h => ([.started h], { s with engine := some h }, .ok ())
      | .error e => ([.startFailed], s, .error (.connection ("Failed to start MATLAB: " ++ e)))

/-- Models the `if self._engine is None: self.start()` prelude shared by
every workspace/execution method (e.g. engine.py lines 138-140, 204-206),
followed by the method body's dereference of `self._engine`: returns the
handle the body will act on, or propagates the exception `start` raised. -/
def ensureEngine (api : VendorApi) (s : EngineState) : MRun Nat :=
  match s.engine with
  | some h => ([], s, .ok h)
  | none =>
    if !api.available then
      ([], s, .error (.notAvailable notInstalledMsg))
    else
      match api.startMatlab false with
      | .ok h => ([.started h], { s with engine := some h }, .ok h)
      | .error e => ([.startFailed], s, .error (.connection ("Failed to start MATLAB: " ++ e)))

/-- Models the `stop` method, engine.py lines 101-119: if a handle exists,
quit it and clear the reference, clearing the reference and raising
`MatlabEngineError` when quitting fails; otherwise do nothing. -/
def stop (api : VendorApi) (s : EngineState) : MRun Unit :=
  match s.engine with
  | none => ([], s, .ok ())
  | some h =>
    match api.quit h with
    | .ok _ => ([.quitCall h], { s with engine := none }, .ok ())
    | .error e =>
      ([.quitCall h], { s with engine := none },
       .error (.engineErr ("Failed to stop MATLAB: " ++ e)))

/-- The `{"output": ..., "error": ...}` record returned by `execute`. -/
structure ExecResult where
  output : String
  error : Option String
  deriving Repr, DecidableEq

/-- Models the `execute` method, engine.py lines 121-183: blank code is
rejected with a result record; otherwise the engine is ensured and the code
evaluated with stream capture; an empty captured stdout is replaced by the
sentinel; `MatlabExecutionError` becomes a result record; other exceptions
whose message mentions connection/engine are re-raised as
`MatlabEngineError`, the rest become an "Unexpected error" record. -/
def execute (api : VendorApi) (s : EngineState) (code : String) : MRun ExecResult :=
  if code == "" || pyStrip code == "" then
    ([], s, .ok { output := "", error := some "No code provided" })
  else
    match ensureEngine api s with
    | (t, s1, .error e) => (t, s1, .error e)
    | (t, s1, .ok h) =>
      (t ++ [.evalCall h code], s1,
        match api.evalCaptured h code with
        | .ok cap =>
          .ok { output := if cap.stdout ≠ "" then cap.stdout else "Code executed successfully."
                error := if cap.stderr ≠ "" then some cap.stderr else none }
        | .execError msg =>
          if api.available then
            .ok { output := "", error := some msg }
          else if strContains (pyLower msg) "connection" || strContains (pyLower msg) "engine" then
            .error (.engineErr ("Engine error: " ++ msg))
          else
            .ok { output := "", error := some ("Unexpected error: " ++ msg) }
        | .otherError msg =>
          if strContains (pyLower msg) "connection" || strContains (pyLower msg) "engine" then
            .error (.engineErr ("Engine error: " ++ msg))
          else
            .ok { output := "", error := some ("Unexpected error: " ++ msg) })

/-- Models `get_variable`, engine.py lines 194-206: ensure a handle, then
read `self._engine.workspace[name]`; vendor exceptions propagate. -/
def get_variable (api : VendorApi) (s : EngineState) (name : String) : MRun MVal :=
  match ensureEngine api s with
  | (t, s1, .error e) => (t, s1, .error e)
  | (t, s1, .ok h) =>
    (t ++ [.wsRead h name], s1,
      match api.workspaceGet h name with
      | .ok v => .ok v
      | .error e => .error (.pyError e))

/-- Models `set_variable`, engine.py lines 208-218: ensure a handle, then
write `self._engine.workspace[name] = value`; vendor exceptions propagate. -/
def set_variable (api : VendorApi) (s : EngineState) (name : String) (value : MVal) : MRun Unit :=
  match ensureEngine api s with
  | (t, s1, .error e) => (t, s1, .error e)
  | (t, s1, .ok h) =>
    (t ++ [.wsWrite h name], s1,
      match api.workspaceSet h name value with
      | .ok _ => .ok ()
      | .error e => .error (.pyError e))

/-- Models `call_function`, engine.py lines 220-235: ensure a handle, then
invoke the named engine function with the given arguments and `nargout`. -/
def call_function (api : VendorApi) (s : EngineState) (name : String)
    (args : List MVal) (nargout : Nat) : MRun MVal :=
  match ensureEngine api s with
  | (t, s1, .error e) => (t, s1, .error e)
  | (t, s1, .ok h) =>
    (t ++ [.fnCall h name], s1,
      match api.callFn h name args nargout with
      | .ok v => .ok v
      | .error e => .error (.pyError e))

/-- The MATLAB snippet of engine.py lines 252-263 (statements of the
triple-quoted string, surrounding indentation normalized). -/
def whosCode : String :=
  "ws = evalin(" ++ sq ++ "base" ++ sq ++ ", " ++ sq ++ "whos" ++ sq ++ ");\n"
    ++ "result = struct();\n"
    ++ "for i = 1:length(ws)\n"
    ++ "info = struct();\n"
    ++ "info.class = ws(i).class;\n"
    ++ "info.size = ws(i).size;\n"
    ++ "info.bytes = ws(i).bytes;\n"
    ++ "result.(ws(i).name) = info;\n"
    ++ "end\n"
    ++ "disp(jsonencode(result));"

/-- Result of `list_workspace`: the detailed branch yields either the
JSON-decoded record or the fallback `{"error": ..., "raw": ...}` record;
the simple branch yields `{"variables": [...]}` (engine.py lines 237-279). -/
inductive WsResult where
  | parsed (v : MVal)
  | parseFailed (errMsg raw : String)
  | variables (names : List String)
  deriving Repr, DecidableEq

/-- Helper for `pySplitWs`: splits the remaining characters, carrying the
reversed characters of the word being read. -/
def pySplitWsAux : List Char → List Char → List String
  | [], acc => if acc.isEmpty then [] else [String.mk acc.reverse]
  | c :: rest, acc =>
    if c.isWhitespace then
      if acc.isEmpty then pySplitWsAux rest []
      else String.mk acc.reverse :: pySplitWsAux rest []
    else pySplitWsAux rest (c :: acc)

/-- Python `str.split()` with no separator: split on whitespace runs,
dropping empty pieces. -/
def pySplitWs (s : String) : List String :=
  pySplitWsAux s.data []

/-- Models `list_workspace`, engine.py lines 237-279: ensure a handle;
detailed mode runs `whosCode` through `execute` and JSON-decodes its output
(decode failure degrades to an error record carrying the raw text); simple
mode captures `who` output and splits it into names. Exceptions raised by
`execute` or `who` propagate. -/
def list_workspace (api : VendorApi) (s : EngineState) (detailed : Bool) : MRun WsResult :=
  match ensureEngine api s with
  | (t, s1, .error e) => (t, s1, .error e)
  | (t, s1, .ok h) =>
    if detailed then
      let r := execute api s1 whosCode
      (t ++ r.1, r.2.1,
        match r.2.2 with
        | .error e => .error e
        | .ok res =>
          match api.jsonLoads (pyStrip res.output) with
          | some v => .ok (.parsed v)
          | none => .ok (.parseFailed "Failed to parse workspace info" res.output))
    else
      (t ++ [.whoCall h], s1,
        match api.who h with
        | .ok out => .ok (.variables (pySplitWs (pyStrip out)))
        | .error e => .error (.pyError e))

/-- Runs `self._engine.eval(f"clear {var}", nargout=0)` for each listed
variable in order, stopping at the first vendor exception (the loop body of
engine.py lines 291-293). -/
def clearEach (api : VendorApi) (h : Nat) : List String → List EngineCall × Except MatlabError Unit
  | [] => ([], .ok ())
  | v :: rest =>
    match api.evalRaw h ("clear " ++ v) with
    | .error e => ([.evalCall h ("clear " ++ v)], .error (.pyError e))
    | .ok _ =>
      match clearEach api h rest with
      | (t, r) => (.evalCall h ("clear " ++ v) :: t, r)

/-- Models `clear_workspace`, engine.py lines 281-295: ensure a handle;
clear each named variable, or everything when no names are given. -/
def clear_workspace (api : VendorApi) (s : EngineState) (vars : List String) : MRun Unit :=
  match ensureEngine api s with
  | (t, s1, .error e) => (t, s1, .error e)
  | (t, s1, .ok h) =>
    match vars with
    | [] =>
      (t ++ [.evalCall h "clear"], s1,
        match api.evalRaw h "clear" with
        | .ok _ => .ok ()
        | .error e => .error (.pyError e))
    | v :: rest =>
      (t ++ (clearEach api h (v :: rest)).1, s1, (clearEach api h (v :: rest)).2)

/-- Python truthiness of `result.get("error")` for an execute-result record
(`None` and `""` are falsy). -/
def errTruthy : Option String → Bool
  | none => false
  | some m => m ≠ ""

/-- Record returned by `save_figure` (engine.py lines 374-423). A `none` in
`path` means the key is absent from the returned dict; `some none` means
the key is present with value `None`. -/
structure FigResult where
  success : Bool
  error : Option String
  path : Option (Option String)
  fmt : Option String
  deriving Repr, DecidableEq

/-- Models `save_figure`, engine.py lines 374-423: ensure a handle;
auto-generate a temporary path when none is given; build a
`print`/`saveas` command by format; unsupported formats return a failure
record before any command is executed; otherwise run the command through
`execute` and report its error or success. -/
def save_figure (api : VendorApi) (s : EngineState) (figNum : Option Int)
    (path : Option String) (fmt : String) (dpi : Int) : MRun FigResult :=
  match ensureEngine api s with
  | (t, s1, .error e) => (t, s1, .error e)
  | (t, s1, .ok _) =>
    let p := match path with
      | some p => p
      | none => api.mkstemp ("." ++ fmt)
    let figHandle := match figNum with
      | some n => "figure(" ++ toString n ++ ")"
      | none => "gcf"
    let runCode := fun (code : String) =>
      let r := execute api s1 code
      (t ++ r.1, r.2.1,
        match r.2.2 with
        | .error e => .error e
        | .ok res =>
          if errTruthy res.error then
            .ok (FigResult.mk false res.error (some none) none)
          else
            .ok (FigResult.mk true none (some (some p)) (some fmt)))
    if fmt == "png" || fmt == "jpg" || fmt == "jpeg" then
      runCode ("print(" ++ figHandle ++ ", " ++ sq ++ p ++ sq ++ ", " ++ sq ++ "-d" ++ fmt
        ++ sq ++ ", " ++ sq ++ "-r" ++ toString dpi ++ sq ++ ");")
    else if fmt == "svg" || fmt == "pdf" then
      runCode ("print(" ++ figHandle ++ ", " ++ sq ++ p ++ sq ++ ", " ++ sq ++ "-d" ++ fmt
        ++ sq ++ ");")
    else if fmt == "fig" then
      runCode ("saveas(" ++ figHandle ++ ", " ++ sq ++ p ++ sq ++ ", " ++ sq ++ "fig"
        ++ sq ++ ");")
    else
      (t, s1, .ok (FigResult.mk false (some ("Unsupported format: " ++ fmt)) none none))

/-- Python `sep.join(parts)`. -/
def joinSep (sep : String) : List String → String
  | [] => ""
  | [x] => x
  | x :: y :: rest => x ++ sep ++ joinSep sep (y :: rest)

/-- Record returned by the MAT-file, export and figure-closing helpers
(engine.py lines 425-504 and 547-584); optional fields model keys absent
from the respective branches. -/
structure IoResult where
  success : Bool
  error : Option String
  path : Option String
  fmt : Option String
  message : Option String
  deriving Repr, DecidableEq

/-- Models `close_figures`, engine.py lines 425-447: close all figures, or
the listed ones through a joined command, reporting `execute`'s error. -/
def close_figures (api : VendorApi) (s : EngineState) (figNums : Option (List Int)) :
    MRun IoResult :=
  match ensureEngine api s with
  | (t, s1, .error e) => (t, s1, .error e)
  | (t, s1, .ok _) =>
    let code := match figNums with
      | none => "close all;"
      | some ns => joinSep "; " (ns.map (fun n => "close(" ++ toString n ++ ")")) ++ ";"
    let r := execute api s1 code
    (t ++ r.1, r.2.1,
      match r.2.2 with
      | .error e => .error e
      | .ok res =>
        if errTruthy res.error then .ok (IoResult.mk false res.error none none none)
        else .ok (IoResult.mk true none none none none))

/-- Models `load_mat_file`, engine.py lines 453-476: synthesize a `load`
command, optionally scoped to one variable (Python truthiness). -/
def load_mat_file (api : VendorApi) (s : EngineState) (path : String)
    (var : Option String) : MRun IoResult :=
  match ensureEngine api s with
  | (t, s1, .error e) => (t, s1, .error e)
  | (t, s1, .ok _) =>
    let code :=
      if strTruthy var then
        "load(" ++ sq ++ path ++ sq ++ ", " ++ sq ++ var.getD "" ++ sq ++ ");"
      else
        "load(" ++ sq ++ path ++ sq ++ ");"
    let r := execute api s1 code
    (t ++ r.1, r.2.1,
      match r.2.2 with
      | .error e => .error e
      | .ok res =>
        if errTruthy res.error then .ok (IoResult.mk false res.error none none none)
        else .ok (IoResult.mk true none none none (some ("Loaded from " ++ path))))

/-- Models `save_mat_file`, engine.py lines 478-504: synthesize a `save`
command, optionally scoped to a non-empty list of variables. -/
def save_mat_file (api : VendorApi) (s : EngineState) (path : String)
    (varList : Option (List String)) : MRun IoResult :=
  match ensureEngine api s with
  | (t, s1, .error e) => (t, s1, .error e)
  | (t, s1, .ok _) =>
    let code :=
      match varList with
      | some (v :: rest) =>
        "save(" ++ sq ++ path ++ sq ++ ", " ++ sq
          ++ joinSep (sq ++ ", " ++ sq) (v :: rest) ++ sq ++ ");"
      | _ => "save(" ++ sq ++ path ++ sq ++ ");"
    let r := execute api s1 code
    (t ++ r.1, r.2.1,
      match r.2.2 with
      | .error e => .error e
      | .ok res =>
        if errTruthy res.error then .ok (IoResult.mk false res.error none none none)
        else .ok (IoResult.mk true none (some path) none none))

/-- Splits a character list at its last dot: `some (pre, post)` with the
list equal to `pre ++ [dot] ++ post` and `post` dot-free. -/
def lastDotSplit : List Char → Option (List Char × List Char)
  | [] => none
  | c :: rest =>
    match lastDotSplit rest with
    | some (pre, post) => some (c :: pre, post)
    | none => if c == '.' then some ([], rest) else none

/-- Characters after the last slash of a character list. -/
def afterLastSlash : List Char → List Char
  | [] => []
  | c :: rest =>
    if c == '/' || rest.any (· == '/') then afterLastSlash rest
    else c :: rest

/-- Python `os.path.basename`: the part after the last slash. -/
def basenameOf (p : String) : String :=
  String.mk (afterLastSlash p.data)

/-- Python `os.path.splitext` applied to a path's final component: splits
at the last dot unless every character before it is a dot. -/
def pySplitext (b : String) : String × String :=
  match lastDotSplit b.data with
  | none => (b, "")
  | some (pre, post) =>
    if pre.any (· ≠ '.') then (String.mk pre, String.mk ('.' :: post))
    else (b, "")

/-- Python `.lstrip(".")`: drop leading dots. -/
def lstripDots (s : String) : String :=
  String.mk (s.data.dropWhile (· == '.'))

/-- The effective format of `import_data`, engine.py lines 521-524: the
given format hint, or else the file extension without its dots. -/
def importFmt (path : String) (fmtArg : Option String) : String :=
  match fmtArg with
  | some f => f
  | none => lstripDots (pySplitext (basenameOf path)).2

/-- Record returned by `import_data` (engine.py lines 506-545). -/
structure DataResult where
  success : Bool
  error : Option String
  varName : Option String
  fmt : Option String
  deriving Repr, DecidableEq

/-- Models `import_data`, engine.py lines 506-545: ensure a handle; derive
the format from the file extension when not given; derive a sanitized
variable name from the filename; dispatch to `readtable`/`jsondecode`
commands, with unsupported formats returning a failure record before any
command is executed. -/
def import_data (api : VendorApi) (s : EngineState) (path : String)
    (fmtArg : Option String) : MRun DataResult :=
  match ensureEngine api s with
  | (t, s1, .error e) => (t, s1, .error e)
  | (t, s1, .ok _) =>
    let fmt := importFmt path fmtArg
    let varName := String.mk
      ((("imported_" ++ (pySplitext (basenameOf path)).1).data.map
          (fun c => if c == '-' then '_' else c)).map
        (fun c => if c == ' ' then '_' else c))
    let runCode := fun (code : String) =>
      let r := execute api s1 code
      (t ++ r.1, r.2.1,
        match r.2.2 with
        | .error e => .error e
        | .ok res =>
          if errTruthy res.error then
            .ok (DataResult.mk false res.error none none)
          else
            .ok (DataResult.mk true none (some varName) (some fmt)))
    if fmt == "csv" || fmt == "txt" then
      runCode (varName ++ " = readtable(" ++ sq ++ path ++ sq ++ ");")
    else if fmt == "xlsx" then
      runCode (varName ++ " = readtable(" ++ sq ++ path ++ sq ++ ");")
    else if fmt == "json" then
      runCode (varName ++ " = jsondecode(fileread(" ++ sq ++ path ++ sq ++ "));")
    else
      (t, s1, .ok (DataResult.mk false (some ("Unsupported format: " ++ fmt)) none none))

/-- Models `export_data`, engine.py lines 547-584: ensure a handle; derive
the format from the file extension when not given; dispatch to
`writetable`/`jsonencode` commands, with unsupported formats returning a
failure record before any command is executed. -/
def export_data (api : VendorApi) (s : EngineState) (var : String) (path : String)
    (fmtArg : Option String) : MRun IoResult :=
  match ensureEngine api s with
  | (t, s1, .error e) => (t, s1, .error e)
  | (t, s1, .ok _) =>
    let fmt := importFmt path fmtArg
    let runCode := fun (code : String) =>
      let r := execute api s1 code
      (t ++ r.1, r.2.1,
        match r.2.2 with
        | .error e => .error e
        | .ok res =>
          if errTruthy res.error then
            .ok (IoResult.mk false res.error none none none)
          else
            .ok (IoResult.mk true none (some path) (some fmt) none))
    if fmt == "csv" || fmt == "txt" then
      runCode ("writetable(" ++ var ++ ", " ++ sq ++ path ++ sq ++ ");")
    else if fmt == "xlsx" then
      runCode ("writetable(" ++ var ++ ", " ++ sq ++ path ++ sq ++ ");")
    else if fmt == "json" then
      runCode ("fid = fopen(" ++ sq ++ path ++ sq ++ ", " ++ sq ++ "w" ++ sq
        ++ "); fprintf(fid, " ++ sq ++ "%s" ++ sq ++ ", jsonencode(" ++ var
        ++ ")); fclose(fid);")
    else
      (t, s1, .ok (IoResult.mk false (some ("Unsupported format: " ++ fmt)) none none none))

/-- Models `make_shared`, engine.py lines 309-333: ensure a handle; with a
truthy name, run `shareEngine(name)` and return the given name; otherwise
run `shareEngine` and return the engine-assigned name queried from
`matlab.engine.engineName`. Vendor exceptions propagate. -/
def make_shared (api : VendorApi) (s : EngineState) (name : Option String) : MRun String :=
  match ensureEngine api s with
  | (t, s1, .error e) => (t, s1, .error e)
  | (t, s1, .ok h) =>
    if strTruthy name then
      let n := name.getD ""
      let code := "matlab.engine.shareEngine(" ++ sq ++ n ++ sq ++ ")"
      match api.evalRaw h code with
      | .ok _ => (t ++ [.evalCall h code], s1, .ok n)
      | .error e => (t ++ [.evalCall h code], s1, .error (.pyError e))
    else
      match api.evalRaw h "matlab.engine.shareEngine" with
      | .error e =>
        (t ++ [.evalCall h "matlab.engine.shareEngine"], s1, .error (.pyError e))
      | .ok _ =>
        match api.evalExpr h "matlab.engine.engineName" with
        | .ok n =>
          (t ++ [.evalCall h "matlab.engine.shareEngine",
                 .exprEval h "matlab.engine.engineName"], s1, .ok n)
        | .error e =>
          (t ++ [.evalCall h "matlab.engine.shareEngine",
                 .exprEval h "matlab.engine.engineName"], s1, .error (.pyError e))

/-- Record returned by `connect_to_session` (engine.py lines 727-779).
`currentSession` models the `current_session` key, present only in the
connection-failure record (`none` = key absent, `some x` = key present with
value `x`). -/
structure ConnectResult where
  success : Bool
  error : Option String
  sessionName : Option String
  message : Option String
  currentSession : Option (Option String)
  deriving Repr, DecidableEq

/-- Models `connect_to_session`, engine.py lines 727-779: fail fast when
the vendor library is absent; try `connect_matlab(session_name)`; on
success quit the previously held handle when it was exclusively owned
(quit failures swallowed) and install the new handle as a shared session;
on failure return an error record, leaving all state untouched. -/
def connect_to_session (api : VendorApi) (s : EngineState) (sessionName : String) :
    MRun ConnectResult :=
  if !api.available then
    ([], s, .ok (ConnectResult.mk false (some notInstalledMsg) none none none))
  else
    match api.connectMatlab sessionName with
    | .error e =>
      ([.connectCall sessionName], s, .ok
        (ConnectResult.mk false
          (some ("Failed to connect to " ++ sq ++ sessionName ++ sq ++ ": " ++ e))
          none none (some s.sessionName)))
    | .ok newH =>
      let quitTrace : List EngineCall :=
        match s.engine with
        | some oldH => if !s.isShared then [.quitCall oldH] else []
        | none => []
      (.connectCall sessionName :: quitTrace,
       EngineState.mk (some newH) true (some sessionName),
       .ok (ConnectResult.mk true none (some sessionName)
         (some ("Successfully connected to " ++ sq ++ sessionName ++ sq)) none))

/-- The MATLAB snippet of engine.py lines 600-604 (statements of the
triple-quoted string, surrounding indentation normalized). -/
def versionCode : String :=
  "v = version;\n"
    ++ "c = computer;\n"
    ++ "fprintf(" ++ sq ++ "Version: %s\\nComputer: %s\\n" ++ sq ++ ", v, c);"

/-- Models `get_version`, engine.py lines 590-609: ensure a handle, run the
version snippet through `execute`, and return its output/error record. -/
def get_version (api : VendorApi) (s : EngineState) : MRun ExecResult :=
  match ensureEngine api s with
  | (t, s1, .error e) => (t, s1, .error e)
  | (t, s1, .ok _) =>
    let r := execute api s1 versionCode
    (t ++ r.1, r.2.1, r.2.2)

/-- Record returned by `get_current_session` (engine.py lines 781-823);
optional fields model keys absent from the respective branches. -/
structure SessionInfo where
  success : Bool
  connected : Option Bool
  message : Option String
  isShared : Option Bool
  sessionName : Option String
  version : Option String
  error : Option String
  deriving Repr, DecidableEq

/-- Models `get_current_session`, engine.py lines 781-823: with no handle,
report an unconnected session; otherwise query the engine name and version
(each guarded by a bare `except` that degrades to `None`/"Unknown") and
report the connected session's details. Never raises. -/
def get_current_session (api : VendorApi) (s : EngineState) : MRun SessionInfo :=
  match s.engine with
  | none =>
    ([], s, .ok (SessionInfo.mk true (some false) (some "No active MATLAB session")
      none none none none))
  | some h =>
    let engineName : Option String :=
      match api.evalExpr h "matlab.engine.engineName" with
      | .ok n => some n
      | .error _ => none
    let versionRun := get_version api s
    let versionInfo : String :=
      match versionRun.2.2 with
      | .ok r => r.output
      | .error _ => "Unknown"
    let sname :=
      if strTruthy engineName then engineName.getD ""
      else if strTruthy s.sessionName then s.sessionName.getD ""
      else "unnamed"
    (.exprEval h "matlab.engine.engineName" :: versionRun.1, s,
     .ok (SessionInfo.mk true (some true) none (some s.isShared) (some sname)
       (some (if versionInfo ≠ "" then
          String.mk (versionInfo.data.takeWhile (· ≠ '\n')) else "Unknown"))
       none))

/-- Python `str(e)` of a shim exception: the message it was built from. -/
def errMsgOf : MatlabError → String
  | .notAvailable m => m
  | .connection m => m
  | .engineErr m => m
  | .pyError m => m

/-- Arguments of a `workspace` tool call (tools.py): each field models
`arguments.get(key)`, `none` meaning absent or JSON null. -/
structure WsToolArgs where
  op : Option String
  var : Option String
  value : Option MVal
  deriving Repr, DecidableEq

/-- The text content a workspace tool call replies with; structured data
(`json.dumps` of a workspace listing, `str()` of a value) is kept
symbolic. -/
inductive ToolReply where
  | text (msg : String)
  | jsonDump (w : WsResult)
  | varText (var : String) (v : MVal)
  deriving Repr, DecidableEq

/-- Models the `name == "workspace"` branch of `call_tool`, tools.py lines
240-287: dispatch on `op`; `get`/`set` require a truthy variable name,
`set` additionally a non-null value, each checked before any shim call;
shim failures in `get`/`set`/`clear` are caught and rendered as error
text, while `list` lets shim exceptions propagate. -/
def workspaceTool (api : VendorApi) (s : EngineState) (args : WsToolArgs) :
    List EngineCall × EngineState × Except MatlabError ToolReply :=
  if args.op == some "list" then
    match list_workspace api s true with
    | (t, s1, .error e) => (t, s1, .error e)
    | (t, s1, .ok w) => (t, s1, .ok (.jsonDump w))
  else if args.op == some "get" then
    if !(strTruthy args.var) then
      ([], s, .ok (.text ("Error: Variable name required for " ++ sq ++ "get" ++ sq
        ++ " operation")))
    else
      let var := args.var.getD ""
      match get_variable api s var with
      | (t, s1, .ok v) => (t, s1, .ok (.varText var v))
      | (t, s1, .error e) =>
        (t, s1, .ok (.text ("Error getting variable " ++ sq ++ var ++ sq ++ ": "
          ++ errMsgOf e)))
  else if args.op == some "set" then
    if !(strTruthy args.var) then
      ([], s, .ok (.text ("Error: Variable name required for " ++ sq ++ "set" ++ sq
        ++ " operation")))
    else
      match args.value with
      | none =>
        ([], s, .ok (.text ("Error: Value required for " ++ sq ++ "set" ++ sq
          ++ " operation")))
      | some v =>
        let var := args.var.getD ""
        match set_variable api s var v with
        | (t, s1, .ok _) =>
          (t, s1, .ok (.text ("Successfully set variable " ++ sq ++ var ++ sq)))
        | (t, s1, .error e) =>
          (t, s1, .ok (.text ("Error setting variable " ++ sq ++ var ++ sq ++ ": "
            ++ errMsgOf e)))
  else if args.op == some "clear" then
    if strTruthy args.var then
      let var := args.var.getD ""
      match clear_workspace api s [var] with
      | (t, s1, .ok _) => (t, s1, .ok (.text ("Cleared variable " ++ sq ++ var ++ sq)))
      | (t, s1, .error e) =>
        (t, s1, .ok (.text ("Error clearing workspace: " ++ errMsgOf e)))
    else
      match clear_workspace api s [] with
      | (t, s1, .ok _) => (t, s1, .ok (.text "Cleared all workspace variables"))
      | (t, s1, .error e) =>
        (t, s1, .ok (.text ("Error clearing workspace: " ++ errMsgOf e)))
  else
    ([], s, .ok (.text ("Error: Unknown operation " ++ sq
      ++ (match args.op with | some o => o | none => "None") ++ sq)))

/-- Filesystem facilities the CLI uses (`Path.exists`, `Path.read_text`). -/
structure CliWorld where
  fileExists : String → Bool
  readText : String → Except String String

/-- Parsed CLI arguments (cli.py lines 135-147). `file` keeps the given
path text; any given path is truthy in Python, so mode selection on it is
presence. -/
structure CliArgs where
  command : Option String
  file : Option String
  interactive : Bool
  verbose : Bool
  deriving Repr, DecidableEq

/-- Models `execute_command`, cli.py lines 9-33: run the code; an error
result prints and exits 1, otherwise 0; shim exceptions propagate. -/
def execute_command (api : VendorApi) (s : EngineState) (code : String) :
    List EngineCall × EngineState × Except MatlabError Nat :=
  match execute api s code with
  | (t, s1, .error e) => (t, s1, .error e)
  | (t, s1, .ok r) => (t, s1, .ok (if errTruthy r.error then 1 else 0))

/-- Models `execute_file`, cli.py lines 36-61: missing file or a read
failure exits 1; otherwise the file's text runs as a command. -/
def execute_file (api : VendorApi) (w : CliWorld) (s : EngineState) (filepath : String) :
    List EngineCall × EngineState × Except MatlabError Nat :=
  if !(w.fileExists filepath) then ([], s, .ok 1)
  else
    match w.readText filepath with
    | .error _ => ([], s, .ok 1)
    | .ok code => execute_command api s code

/-- Models `interactive_mode`, cli.py lines 64-111, on a finite list of
input lines (end of list = EOF): strip each line; `exit`/`quit` end the
loop, `help` and blank lines are skipped, anything else is executed with
errors printed; shim exceptions propagate out of the loop. -/
def interactive_mode (api : VendorApi) : List String → EngineState →
    List EngineCall × EngineState × Except MatlabError Unit
  | [], s => ([], s, .ok ())
  | line :: rest, s =>
    let code := pyStrip line
    if pyLower code == "exit" || pyLower code == "quit" then ([], s, .ok ())
    else if pyLower code == "help" then interactive_mode api rest s
    else if code == "" then interactive_mode api rest s
    else
      match execute api s code with
      | (t, s1, .error e) => (t, s1, .error e)
      | (t, s1, .ok _) =>
        match interactive_mode api rest s1 with
        | (t2, s2, r) => (t ++ t2, s2, r)

/-- Python truthiness of `any([args.command, args.file, args.interactive])`
(cli.py line 150): empty command strings are falsy, any given path is
truthy. -/
def modeSelected (args : CliArgs) : Bool :=
  strTruthy args.command || args.file.isSome || args.interactive

/-- Models `main`, cli.py lines 114-178: exit 1 when no mode is selected;
otherwise run the selected mode inside `with MatlabEngine()`, whose entry
starts the engine and whose exit stops it; any exception from start, the
mode body, or stop is caught and exits 1; otherwise the mode's exit code
is returned (0 for a completed interactive session). Returns the engine
trace and the exit code. -/
def main (api : VendorApi) (w : CliWorld) (args : CliArgs) (inputs : List String) :
    List EngineCall × Nat :=
  if !(modeSelected args) then ([], 1)
  else
    let s0 := EngineState.mk none false none
    match start api s0 false with
    | (t, _, .error _) => (t, 1)
    | (t, s1, .ok _) =>
      let body : List EngineCall × EngineState × Except MatlabError Nat :=
        if strTruthy args.command then execute_command api s1 (args.command.getD "")
        else if args.file.isSome then execute_file api w s1 (args.file.getD "")
        else
          match interactive_mode api inputs s1 with
          | (t2, s2, .ok _) => (t2, s2, .ok 0)
          | (t2, s2, .error e) => (t2, s2, .error e)
      match body with
      | (t2, s2, .error _) =>
        (t ++ t2 ++ (stop api s2).1, 1)
      | (t2, s2, .ok rc) =>
        match stop api s2 with
        | (t3, _, .ok _) => (t ++ t2 ++ t3, rc)
        | (t3, _, .error _) => (t ++ t2 ++ t3, 1)

/-- With a handle already present, the auto-start prelude is a no-op
returning that handle. -/
theorem ensureEngine_some (api : VendorApi) (s : EngineState) (h : Nat)
    (hs : s.engine = some h) : ensureEngine api s = ([], s, .ok h) := by
  unfold ensureEngine
  rw [hs]

/-- The auto-start prelude either fails before any engine action, fails at
the start attempt, or yields a handle that is now installed in the state,
with a trace that is empty or a single successful start. -/
theorem ensureEngine_shape (api : VendorApi) (s : EngineState) :
    ensureEngine api s = ([], s, .error (.notAvailable notInstalledMsg)) ∨
    (∃ e, ensureEngine api s = ([.startFailed], s,
      .error (.connection ("Failed to start MATLAB: " ++ e)))) ∨
    (∃ h t, ensureEngine api s = (t, { s with engine := some h }, .ok h) ∧
      (t = [] ∨ t = [.started h])) := by
  obtain ⟨eng, sh, sn⟩ := s
  cases eng with
  | some h =>
    right; right
    exact ⟨h, [], rfl, Or.inl rfl⟩
  | none =>
    by_cases hav : api.available
    · cases hst : api.startMatlab false with
      | ok h =>
        right; right
        refine ⟨h, [.started h], ?_, Or.inr rfl⟩
        simp [ensureEngine, hav, hst]
      | error e =>
        right; left
        exact ⟨e, by simp [ensureEngine, hav, hst]⟩
    · left
      simp [ensureEngine, hav]

/-- With a handle present, `execute` leaves the shim state unchanged. -/
theorem execute_state_some (api : VendorApi) (s : EngineState) (code : String)
    (h : Nat) (hs : s.engine = some h) : (execute api s code).2.1 = s := by
  unfold execute
  split
  · rfl
  · rw [ensureEngine_some api s h hs]

/-- Vendor behavior in which every call succeeds; used by the concrete
witnesses below. -/
def apiOk : VendorApi := {
  available := true
  startMatlab := fun _ => .ok 0
  connectMatlab := fun _ => .ok 5
  quit := fun _ => .ok ()
  evalCaptured := fun _ _ => .ok ⟨"ans = 2", ""⟩
  evalRaw := fun _ _ => .ok ()
  evalExpr := fun _ _ => .ok "MATLAB_123"
  workspaceGet := fun _ _ => .ok (.mnum 1)
  workspaceSet := fun _ _ _ => .ok ()
  callFn := fun _ _ _ _ => .ok (.mnum 0)
  who := fun _ => .ok "x y"
  mkstemp := fun suf => "/tmp/matlab_fig_ABC" ++ suf
  jsonLoads := fun _ => none
}

/-- Vendor behavior whose evaluation captures error text on stderr while
stdout stays empty. -/
def apiErrOut : VendorApi :=
  { apiOk with evalCaptured := fun _ _ => .ok ⟨"", "Oops"⟩ }

/-- Vendor behavior in which connecting to a shared session raises. -/
def apiConnFail : VendorApi :=
  { apiOk with connectMatlab := fun _ => .error "no such session" }

/-- Vendor behavior in which quitting the engine raises. -/
def apiQuitFail : VendorApi :=
  { apiOk with quit := fun _ => .error "boom" }

/-- A shim state holding handle 0, not shared, unnamed. -/
def sHandle : EngineState := ⟨some 0, false, none⟩

/-- A shim state with no handle. -/
def sNone : EngineState := ⟨none, false, none⟩

/-- Filesystem in which every file exists and reads as `disp(1)`. -/
def cliW : CliWorld := ⟨fun _ => true, fun _ => .ok "disp(1)"⟩

/-- C4: for input that is empty or strips to nothing, `execute` returns a
record with empty output and the "No code provided" error, raises no
exception, performs no engine interaction (its trace is empty, so in
particular no auto-start), and leaves the shim state untouched. -/
theorem execute_blank_is_inert (api : VendorApi) (s : EngineState) (code : String)
    (hb : pyStrip code = "") :
    execute api s code = ([], s, .ok { output := "", error := some "No code provided" }) := by
  unfold execute
  have hc : (code == "" || pyStrip code == "") = true := by simp [hb]
  rw [if_pos hc]

/-- Witness for C4 at the whitespace-only input `"  \t\n "`. -/
theorem execute_blank_is_inert_witness :
    pyStrip "  \t\n " = "" ∧
    execute apiOk sHandle "  \t\n " =
      ([], sHandle, .ok { output := "", error := some "No code provided" }) :=
  ⟨rfl, execute_blank_is_inert apiOk sHandle "  \t\n " rfl⟩

/-- C6: `stop` always leaves the shim without a handle; with no handle it
is a silent no-op; with a handle it returns normally when quitting
succeeds, and raises `MatlabEngineError` (still clearing the reference)
when quitting fails. -/
theorem stop_clears_reference (api : VendorApi) (s : EngineState) :
    ((stop api s).2.1).engine = none ∧
    (s.engine = none → stop api s = ([], s, .ok ())) ∧
    (∀ h, s.engine = some h → api.quit h = .ok () → (stop api s).2.2 = .ok ()) ∧
    (∀ h e, s.engine = some h → api.quit h = .error e →
      (stop api s).2.2 = .error (.engineErr ("Failed to stop MATLAB: " ++ e))) := by
  refine ⟨?_, ?_, ?_, ?_⟩
  · cases hs : s.engine with
    | none => simp [stop, hs]
    | some h => cases hq : api.quit h <;> simp [stop, hs, hq]
  · intro hs
    simp [stop, hs]
  · intro h hs hq
    simp [stop, hs, hq]
  · intro h e hs hq
    simp [stop, hs, hq]

/-- Witness for C6 with a present handle and a failing quit. -/
theorem stop_clears_reference_witness :
    ((stop apiQuitFail sHandle).2.1).engine = none ∧
    (stop apiQuitFail sHandle).2.2 =
      .error (.engineErr ("Failed to stop MATLAB: " ++ "boom")) :=
  ⟨(stop_clears_reference apiQuitFail sHandle).1,
   (stop_clears_reference apiQuitFail sHandle).2.2.2 0 "boom" rfl rfl⟩

/-- C8: on a shim with no handle, `get_current_session` returns
success with `connected=false` and the "No active MATLAB session" message,
performs no engine interaction, and raises nothing. -/
theorem get_current_session_disconnected (api : VendorApi) (b : Bool) (n : Option String) :
    get_current_session api ⟨none, b, n⟩ =
      ([], ⟨none, b, n⟩,
        .ok (SessionInfo.mk true (some false) (some "No active MATLAB session")
          none none none none)) := rfl

/-- C3: whenever `connect_to_session` fails to establish the new
connection (vendor library absent, or `connect_matlab` raising), it
returns a record with `success=false` and an error message, leaves the
whole shim state (handle, shared flag, session name) exactly as it was,
and never quits the previously held handle. -/
theorem connect_failure_preserves_state (api : VendorApi) (s : EngineState) (name : String)
    (hfail : api.available = false ∨ ∃ e, api.connectMatlab name = .error e) :
    (connect_to_session api s name).2.1 = s ∧
    (∃ r, (connect_to_session api s name).2.2 = .ok r ∧
      r.success = false ∧ r.error ≠ none) ∧
    (∀ c ∈ (connect_to_session api s name).1, ∀ h, c ≠ .quitCall h) := by
  by_cases hav : api.available
  · rcases hfail with hf | ⟨e, he⟩
    · rw [hav] at hf; cases hf
    · have hEq : connect_to_session api s name = ([.connectCall name], s,
          .ok (ConnectResult.mk false
            (some ("Failed to connect to " ++ sq ++ name ++ sq ++ ": " ++ e))
            none none (some s.sessionName))) := by
        simp [connect_to_session, hav, he]
      rw [hEq]
      refine ⟨rfl, ⟨_, rfl, rfl, by simp⟩, ?_⟩
      intro c hc h
      rw [List.mem_singleton] at hc
      subst hc
      simp
  · have hf : api.available = false := by
      cases hA : api.available
      · rfl
      · exact absurd hA hav
    have hEq : connect_to_session api s name = ([], s,
        .ok (ConnectResult.mk false (some notInstalledMsg) none none none)) := by
      simp [connect_to_session, hf]
    rw [hEq]
    exact ⟨rfl, ⟨_, rfl, rfl, by simp⟩, by simp⟩

/-- Witness for C3 where connecting raises. -/
theorem connect_failure_preserves_state_witness :
    (connect_to_session apiConnFail sHandle "nope").2.1 = sHandle ∧
    (∃ r, (connect_to_session apiConnFail sHandle "nope").2.2 = .ok r ∧
      r.success = false ∧ r.error ≠ none) ∧
    (∀ c ∈ (connect_to_session apiConnFail sHandle "nope").1,
      ∀ h, c ≠ .quitCall h) :=
  connect_failure_preserves_state apiConnFail sHandle "nope"
    (Or.inr ⟨"no such session", rfl⟩)

/-- C1 counterexample: a run of `execute` in which the engine call
completes without an exception, the captured standard output is empty and
error text IS captured on stderr — yet the returned record's output field
is the sentinel, contradicting "the sentinel is never substituted when an
error occurred". -/
theorem execute_sentinel_despite_error_counterexample :
    apiErrOut.evalCaptured 0 "x = 1" = .ok ⟨"", "Oops"⟩ ∧
    (execute apiErrOut sHandle "x = 1").2.2 =
      .ok { output := "Code executed successfully.", error := some "Oops" } :=
  ⟨rfl, rfl⟩

/-- C1 amended: when the engine call completes without an exception, the
returned output equals the captured stdout verbatim when that is non-empty
and equals the sentinel when the captured stdout is empty — regardless of
whether error text was captured; the error field carries the captured
stderr exactly when non-empty. -/
theorem execute_output_spec (api : VendorApi) (s : EngineState) (code : String)
    (t : List EngineCall) (s1 : EngineState) (h : Nat) (cap : EvalCapture)
    (hnb : (code == "" || pyStrip code == "") = false)
    (hens : ensureEngine api s = (t, s1, .ok h))
    (heval : api.evalCaptured h code = .ok cap) :
    ∃ r, (execute api s code).2.2 = .ok r ∧
      (cap.stdout ≠ "" → r.output = cap.stdout) ∧
      (cap.stdout = "" → r.output = "Code executed successfully.") ∧
      r.error = (if cap.stderr ≠ "" then some cap.stderr else none) := by
  have hEq : execute api s code = (t ++ [.evalCall h code], s1,
      .ok { output := if cap.stdout ≠ "" then cap.stdout else "Code executed successfully.",
            error := if cap.stderr ≠ "" then some cap.stderr else none }) := by
    simp [execute, hnb, hens, heval]
  rw [hEq]
  refine ⟨_, rfl, ?_, ?_, rfl⟩
  · intro hne
    simp [hne]
  · intro heq
    simp [heq]

/-- Witness for C1's amended statement on a run with non-empty stdout. -/
theorem execute_output_spec_witness :
    ∃ r, (execute apiOk sHandle "x = 1").2.2 = .ok r ∧
      (("ans = 2" : String) ≠ "" → r.output = "ans = 2") ∧
      (("ans = 2" : String) = "" → r.output = "Code executed successfully.") ∧
      r.error = (if ("" : String) ≠ "" then some "" else none) :=
  execute_output_spec apiOk sHandle "x = 1" [] sHandle 0 ⟨"ans = 2", ""⟩ rfl rfl rfl

/-- C10 counterexample: a `workspace` tool call with op=set whose value is
null AND whose variable name is also missing is answered with the
variable-name error, not the "Value required" error the claim promises for
every null-value call. -/
theorem workspace_set_missing_var_counterexample :
    workspaceTool apiOk sHandle ⟨some "set", none, none⟩ =
      ([], sHandle, .ok (.text ("Error: Variable name required for " ++ sq ++ "set"
        ++ sq ++ " operation"))) ∧
    ("Error: Variable name required for " ++ sq ++ "set" ++ sq ++ " operation") ≠
      ("Error: Value required for " ++ sq ++ "set" ++ sq ++ " operation") :=
  ⟨rfl, by decide⟩

/-- C10 amended: for op=set with a non-empty variable name, a null/absent
value is answered with the "Value required" error before any shim or
engine interaction (empty trace, unchanged state, no exception); with the
variable name missing as well, the variable-name error takes precedence —
either way no value is ever written. -/
theorem workspace_set_null_value_rejected (api : VendorApi) (s : EngineState)
    (v : String) (hv : v ≠ "") :
    workspaceTool api s ⟨some "set", some v, none⟩ =
      ([], s, .ok (.text ("Error: Value required for " ++ sq ++ "set" ++ sq
        ++ " operation"))) := by
  simp [workspaceTool, strTruthy, hv]

/-- Witness for C10's amended statement at variable name `x`. -/
theorem workspace_set_null_value_rejected_witness :
    workspaceTool apiOk sHandle ⟨some "set", some "x", none⟩ =
      ([], sHandle, .ok (.text ("Error: Value required for " ++ sq ++ "set" ++ sq
        ++ " operation"))) :=
  workspace_set_null_value_rejected apiOk sHandle "x" (by decide)

/-- From a handle-less state, the auto-start prelude fails with an empty
trace, fails with a lone start attempt, or succeeds with a lone start that
installs the new handle. -/
theorem ensureEngine_none (api : VendorApi) (s : EngineState) (hnone : s.engine = none) :
    ensureEngine api s = ([], s, .error (.notAvailable notInstalledMsg)) ∨
    (∃ e, ensureEngine api s = ([.startFailed], s,
      .error (.connection ("Failed to start MATLAB: " ++ e)))) ∨
    (∃ h, ensureEngine api s = ([.started h], { s with engine := some h }, .ok h)) := by
  by_cases hav : api.available
  · cases hst : api.startMatlab false with
    | ok h =>
      right; right
      exact ⟨h, by simp [ensureEngine, hnone, hav, hst]⟩
    | error e =>
      right; left
      exact ⟨e, by simp [ensureEngine, hnone, hav, hst]⟩
  · left
    have hf : api.available = false := by
      cases hA : api.available
      · rfl
      · exact absurd hA hav
    simp [ensureEngine, hnone, hf]

/-- C2 counterexample: calling `save_figure` with unsupported format `bmp`
from a handle-less shim DOES interact with the engine — it auto-starts one
(trace `[started 0]`, not empty) before returning the structured failure. -/
theorem unsupported_format_touches_engine_counterexample :
    ("bmp" ∉ (["png", "jpg", "jpeg", "svg", "pdf", "fig"] : List String)) ∧
    save_figure apiOk sNone none none "bmp" 150 =
      ([.started 0], ⟨some 0, false, none⟩,
        .ok (FigResult.mk false (some "Unsupported format: bmp") none none)) ∧
    (save_figure apiOk sNone none none "bmp" 150).1 ≠ [] :=
  ⟨by decide, rfl, by decide⟩

/-- C2 amended: for `save_figure` with a format outside png/jpg/jpeg/svg/
pdf/fig and `import_data` with a given-or-derived format outside csv/txt/
xlsx/json, no code is ever evaluated on the engine; when a handle already
exists the call returns the structured `success=false` "Unsupported
format" record with no exception, unchanged state and an empty trace;
when no handle exists the engine is auto-started first (and a failing
start propagates as an exception). -/
theorem unsupported_format_spec (api : VendorApi) (s : EngineState)
    (figNum : Option Int) (path : Option String) (fmt : String) (dpi : Int)
    (dpath : String) (dfmt : Option String)
    (hfig : fmt ∉ (["png", "jpg", "jpeg", "svg", "pdf", "fig"] : List String))
    (hdat : importFmt dpath dfmt ∉ (["csv", "txt", "xlsx", "json"] : List String)) :
    (∀ c ∈ (save_figure api s figNum path fmt dpi).1, ∀ h code, c ≠ .evalCall h code) ∧
    (∀ c ∈ (import_data api s dpath dfmt).1, ∀ h code, c ≠ .evalCall h code) ∧
    (∀ h0, s.engine = some h0 →
      save_figure api s figNum path fmt dpi =
        ([], s, .ok (FigResult.mk false (some ("Unsupported format: " ++ fmt)) none none)) ∧
      import_data api s dpath dfmt =
        ([], s, .ok (DataResult.mk false
          (some ("Unsupported format: " ++ importFmt dpath dfmt)) none none))) := by
  obtain ⟨h1, h2, h3, h4, h5, h6⟩ :
      fmt ≠ "png" ∧ fmt ≠ "jpg" ∧ fmt ≠ "jpeg" ∧ fmt ≠ "svg" ∧ fmt ≠ "pdf" ∧ fmt ≠ "fig" := by
    simpa using hfig
  obtain ⟨d1, d2, d3, d4⟩ :
      importFmt dpath dfmt ≠ "csv" ∧ importFmt dpath dfmt ≠ "txt" ∧
      importFmt dpath dfmt ≠ "xlsx" ∧ importFmt dpath dfmt ≠ "json" := by
    simpa using hdat
  have keyF : ∀ t s1 h0, ensureEngine api s = (t, s1, .ok h0) →
      save_figure api s figNum path fmt dpi =
        (t, s1, .ok (FigResult.mk false (some ("Unsupported format: " ++ fmt)) none none)) := by
    intro t s1 h0 hE
    simp [save_figure, hE, h1, h2, h3, h4, h5, h6]
  have keyFE : ∀ t s1 e, ensureEngine api s = (t, s1, .error e) →
      save_figure api s figNum path fmt dpi = (t, s1, .error e) := by
    intro t s1 e hE
    simp [save_figure, hE]
  have keyD : ∀ t s1 h0, ensureEngine api s = (t, s1, .ok h0) →
      import_data api s dpath dfmt =
        (t, s1, .ok (DataResult.mk false
          (some ("Unsupported format: " ++ importFmt dpath dfmt)) none none)) := by
    intro t s1 h0 hE
    simp [import_data, hE, d1, d2, d3, d4]
  have keyDE : ∀ t s1 e, ensureEngine api s = (t, s1, .error e) →
      import_data api s dpath dfmt = (t, s1, .error e) := by
    intro t s1 e hE
    simp [import_data, hE]
  refine ⟨?_, ?_, ?_⟩
  · rcases ensureEngine_shape api s with hE | ⟨e, hE⟩ | ⟨h0, t, hE, ht⟩
    · rw [keyFE _ _ _ hE]
      simp
    · rw [keyFE _ _ _ hE]
      intro c hc h code
      rw [List.mem_singleton] at hc
      subst hc
      simp
    · rw [keyF _ _ _ hE]
      rcases ht with rfl | rfl
      · simp
      · intro c hc h code
        rw [List.mem_singleton] at hc
        subst hc
        simp
  · rcases ensureEngine_shape api s with hE | ⟨e, hE⟩ | ⟨h0, t, hE, ht⟩
    · rw [keyDE _ _ _ hE]
      simp
    · rw [keyDE _ _ _ hE]
      intro c hc h code
      rw [List.mem_singleton] at hc
      subst hc
      simp
    · rw [keyD _ _ _ hE]
      rcases ht with rfl | rfl
      · simp
      · intro c hc h code
        rw [List.mem_singleton] at hc
        subst hc
        simp
  · intro h0 hs
    exact ⟨keyF _ _ _ (ensureEngine_some api s h0 hs),
      keyD _ _ _ (ensureEngine_some api s h0 hs)⟩

/-- Witness for C2's amended statement: format `bmp` for figures and
derived format `xyz` for data import, with a handle present. -/
theorem unsupported_format_spec_witness :
    (∀ c ∈ (save_figure apiOk sHandle none none "bmp" 150).1,
      ∀ h code, c ≠ .evalCall h code) ∧
    (∀ c ∈ (import_data apiOk sHandle "f.xyz" none).1,
      ∀ h code, c ≠ .evalCall h code) ∧
    (∀ h0, sHandle.engine = some h0 →
      save_figure apiOk sHandle none none "bmp" 150 =
        ([], sHandle, .ok (FigResult.mk false (some ("Unsupported format: " ++ "bmp"))
          none none)) ∧
      import_data apiOk sHandle "f.xyz" none =
        ([], sHandle, .ok (DataResult.mk false
          (some ("Unsupported format: " ++ importFmt "f.xyz" none)) none none))) :=
  unsupported_format_spec apiOk sHandle none none "bmp" 150 "f.xyz" none
    (by decide) (by decide)

/-- C9: with a truthy explicit name, `make_shared` never queries the
engine for its assigned name (no value-returning eval appears in the
trace) and, when it returns, returns exactly the given name; with no name
given, a returned name always comes from the `matlab.engine.engineName`
query. -/
theorem make_shared_name_passthrough (api : VendorApi) (s : EngineState) (n : String)
    (hn : n ≠ "") :
    (∀ c ∈ (make_shared api s (some n)).1, ∀ h q, c ≠ .exprEval h q) ∧
    (∀ r, (make_shared api s (some n)).2.2 = .ok r → r = n) ∧
    (∀ r, (make_shared api s none).2.2 = .ok r →
      ∃ h, api.evalExpr h "matlab.engine.engineName" = .ok r) := by
  have hTr : strTruthy (some n) = true := by simp [strTruthy, hn]
  refine ⟨?_, ?_, ?_⟩
  · rcases ensureEngine_shape api s with hE | ⟨e, hE⟩ | ⟨h0, t, hE, ht⟩
    · simp [make_shared, hE]
    · simp [make_shared, hE]
    · cases hr : api.evalRaw h0 ("matlab.engine.shareEngine(" ++ sq ++ n ++ sq ++ ")") <;>
        rcases ht with rfl | rfl <;>
        simp [make_shared, hE, hTr, hr]
  · intro r hr
    rcases ensureEngine_shape api s with hE | ⟨e, hE⟩ | ⟨h0, t, hE, ht⟩
    · simp [make_shared, hE] at hr
    · simp [make_shared, hE] at hr
    · cases hrw : api.evalRaw h0 ("matlab.engine.shareEngine(" ++ sq ++ n ++ sq ++ ")") with
      | ok u =>
        simp [make_shared, hE, hTr, hrw] at hr
        exact hr.symm
      | error e =>
        simp [make_shared, hE, hTr, hrw] at hr
  · intro r hr
    rcases ensureEngine_shape api s with hE | ⟨e, hE⟩ | ⟨h0, t, hE, ht⟩
    · simp [make_shared, hE] at hr
    · simp [make_shared, hE] at hr
    · cases hrw : api.evalRaw h0 "matlab.engine.shareEngine" with
      | error e =>
        simp [make_shared, hE, hrw, strTruthy] at hr
      | ok u =>
        cases hq : api.evalExpr h0 "matlab.engine.engineName" with
        | error e =>
          simp [make_shared, hE, hrw, hq, strTruthy] at hr
        | ok nm =>
          simp [make_shared, hE, hrw, hq, strTruthy] at hr
          exact ⟨h0, by rw [hq, hr]⟩

/-- Witness for C9 at the explicit name `nm`. -/
theorem make_shared_name_passthrough_witness :
    (∀ c ∈ (make_shared apiOk sHandle (some "nm")).1, ∀ h q, c ≠ .exprEval h q) ∧
    (∀ r, (make_shared apiOk sHandle (some "nm")).2.2 = .ok r → r = "nm") ∧
    (∀ r, (make_shared apiOk sHandle none).2.2 = .ok r →
      ∃ h, apiOk.evalExpr h "matlab.engine.engineName" = .ok r) :=
  make_shared_name_passthrough apiOk sHandle "nm" (by decide)

/-- Acceptable behavior of an operation run from a handle-less state: its
trace opens with a successful engine start (the lazily created handle the
operation then acts on), or the operation raised having performed nothing
beyond at most a failed start attempt. -/
def lazyStartOk {α : Type} (run : MRun α) : Prop :=
  (∃ h rest, run.1 = .started h :: rest) ∨
  ((run.1 = [] ∨ run.1 = [.startFailed]) ∧ ∃ e, run.2.2 = Except.error e)

/-- Helper: a run whose trace opens with a successful start is acceptable. -/
theorem lazyStartOk_of_started {α : Type} (run : MRun α) (h : Nat)
    (ht : ∃ rest, run.1 = .started h :: rest) : lazyStartOk run :=
  Or.inl ⟨h, ht⟩

/-- Helper: a run that raised with an empty or failed-start trace is
acceptable. -/
theorem lazyStartOk_of_err {α : Type} (run : MRun α) (e : MatlabError)
    (ht : run.1 = [] ∨ run.1 = [.startFailed]) (he : run.2.2 = Except.error e) :
    lazyStartOk run :=
  Or.inr ⟨ht, e, he⟩

/-- C5: every workspace/execution operation invoked on a shim with no
handle auto-starts one before acting: either its trace opens with a
successful engine start, or the start failed and the operation raised
without any further engine action. -/
theorem ops_auto_start (api : VendorApi) (s : EngineState) (code v fn : String)
    (val : MVal) (argl : List MVal) (k : Nat) (detailed : Bool) (vars : List String)
    (figNum : Option Int) (path : Option String) (fmt : String) (dpi : Int)
    (dpath : String) (dfmt : Option String) (figNums : Option (List Int))
    (lmPath : String) (lmVar : Option String) (smPath : String)
    (smVars : Option (List String)) (exVar exPath : String) (exFmt : Option String)
    (hnone : s.engine = none)
    (hcode : (code == "" || pyStrip code == "") = false) :
    lazyStartOk (execute api s code) ∧
    lazyStartOk (get_variable api s v) ∧
    lazyStartOk (set_variable api s v val) ∧
    lazyStartOk (call_function api s fn argl k) ∧
    lazyStartOk (list_workspace api s detailed) ∧
    lazyStartOk (clear_workspace api s vars) ∧
    lazyStartOk (save_figure api s figNum path fmt dpi) ∧
    lazyStartOk (import_data api s dpath dfmt) ∧
    lazyStartOk (close_figures api s figNums) ∧
    lazyStartOk (load_mat_file api s lmPath lmVar) ∧
    lazyStartOk (save_mat_file api s smPath smVars) ∧
    lazyStartOk (export_data api s exVar exPath exFmt) := by
  rcases ensureEngine_none api s hnone with hE | ⟨e, hE⟩ | ⟨h, hE⟩
  · refine ⟨?_, ?_, ?_, ?_, ?_, ?_, ?_, ?_, ?_, ?_, ?_, ?_⟩ <;>
      refine lazyStartOk_of_err _ (.notAvailable notInstalledMsg) (Or.inl ?_) ?_
    · simp [execute, hcode, hE]
    · simp [execute, hcode, hE]
    · simp [get_variable, hE]
    · simp [get_variable, hE]
    · simp [set_variable, hE]
    · simp [set_variable, hE]
    · simp [call_function, hE]
    · simp [call_function, hE]
    · simp [list_workspace, hE]
    · simp [list_workspace, hE]
    · simp [clear_workspace, hE]
    · simp [clear_workspace, hE]
    · simp [save_figure, hE]
    · simp [save_figure, hE]
    · simp [import_data, hE]
    · simp [import_data, hE]
    · simp [close_figures, hE]
    · simp [close_figures, hE]
    · simp [load_mat_file, hE]
    · simp [load_mat_file, hE]
    · simp [save_mat_file, hE]
    · simp [save_mat_file, hE]
    · simp [export_data, hE]
    · simp [export_data, hE]
  · refine ⟨?_, ?_, ?_, ?_, ?_, ?_, ?_, ?_, ?_, ?_, ?_, ?_⟩ <;>
      refine lazyStartOk_of_err _ (.connection ("Failed to start MATLAB: " ++ e))
        (Or.inr ?_) ?_
    · simp [execute, hcode, hE]
    · simp [execute, hcode, hE]
    · simp [get_variable, hE]
    · simp [get_variable, hE]
    · simp [set_variable, hE]
    · simp [set_variable, hE]
    · simp [call_function, hE]
    · simp [call_function, hE]
    · simp [list_workspace, hE]
    · simp [list_workspace, hE]
    · simp [clear_workspace, hE]
    · simp [clear_workspace, hE]
    · simp [save_figure, hE]
    · simp [save_figure, hE]
    · simp [import_data, hE]
    · simp [import_data, hE]
    · simp [close_figures, hE]
    · simp [close_figures, hE]
    · simp [load_mat_file, hE]
    · simp [load_mat_file, hE]
    · simp [save_mat_file, hE]
    · simp [save_mat_file, hE]
    · simp [export_data, hE]
    · simp [export_data, hE]
  · refine ⟨?_, ?_, ?_, ?_, ?_, ?_, ?_, ?_, ?_, ?_, ?_, ?_⟩ <;>
      refine lazyStartOk_of_started _ h ?_
    · simp [execute, hcode, hE]
    · simp [get_variable, hE]
    · simp [set_variable, hE]
    · simp [call_function, hE]
    · cases detailed <;> simp [list_workspace, hE]
    · cases vars <;> simp [clear_workspace, hE]
    · simp only [save_figure, hE]
      repeat' split
      all_goals exact ⟨_, rfl⟩
    · simp only [import_data, hE]
      repeat' split
      all_goals exact ⟨_, rfl⟩
    · simp [close_figures, hE]
    · simp [load_mat_file, hE]
    · simp [save_mat_file, hE]
    · simp only [export_data, hE]
      repeat' split
      all_goals exact ⟨_, rfl⟩

/-- Witness for C5 from a handle-less shim with a vendor that starts. -/
theorem ops_auto_start_witness :
    lazyStartOk (execute apiOk sNone "x = 1") ∧
    lazyStartOk (get_variable apiOk sNone "x") ∧
    lazyStartOk (set_variable apiOk sNone "x" (.mnum 1)) ∧
    lazyStartOk (call_function apiOk sNone "max" [.mnum 1] 1) ∧
    lazyStartOk (list_workspace apiOk sNone true) ∧
    lazyStartOk (clear_workspace apiOk sNone []) ∧
    lazyStartOk (save_figure apiOk sNone none none "png" 150) ∧
    lazyStartOk (import_data apiOk sNone "f.csv" none) ∧
    lazyStartOk (close_figures apiOk sNone none) ∧
    lazyStartOk (load_mat_file apiOk sNone "d.mat" none) ∧
    lazyStartOk (save_mat_file apiOk sNone "d.mat" none) ∧
    lazyStartOk (export_data apiOk sNone "x" "out.csv" none) :=
  ops_auto_start apiOk sNone "x = 1" "x" "max" (.mnum 1) [.mnum 1] 1 true []
    none none "png" 150 "f.csv" none none "d.mat" none "d.mat" none "x" "out.csv" none
    rfl rfl

/-- C7: the CLI entry point exits 1 when no mode is selected; exits 1 when
the engine fails to start, when the executed command produces an error
result or raises, or when the final engine stop raises; and exits 0 when
the selected mode (command, file, or interactive) completes without error
and the engine shuts down cleanly. -/
theorem cli_main_exit (api : VendorApi) (w : CliWorld) (args : CliArgs)
    (inputs : List String) :
    (modeSelected args = false → (main api w args inputs).2 = 1) ∧
    (∀ t1 s1 e, modeSelected args = true →
      start api (EngineState.mk none false none) false = (t1, s1, .error e) →
      (main api w args inputs).2 = 1) ∧
    (∀ c, args.command = some c → c ≠ "" →
      ∀ t1 s1, start api (EngineState.mk none false none) false = (t1, s1, .ok ()) →
      ∀ t2 s2 r, execute api s1 c = (t2, s2, .ok r) → errTruthy r.error = true →
      (main api w args inputs).2 = 1) ∧
    (∀ c, args.command = some c → c ≠ "" →
      ∀ t1 s1, start api (EngineState.mk none false none) false = (t1, s1, .ok ()) →
      ∀ t2 s2 e, execute api s1 c = (t2, s2, .error e) →
      (main api w args inputs).2 = 1) ∧
    (∀ c, args.command = some c → c ≠ "" →
      ∀ t1 s1, start api (EngineState.mk none false none) false = (t1, s1, .ok ()) →
      ∀ t2 s2 r, execute api s1 c = (t2, s2, .ok r) → errTruthy r.error = false →
      ∀ t3 s3, stop api s2 = (t3, s3, .ok ()) →
      (main api w args inputs).2 = 0) ∧
    (∀ c, args.command = some c → c ≠ "" →
      ∀ t1 s1, start api (EngineState.mk none false none) false = (t1, s1, .ok ()) →
      ∀ t2 s2 r, execute api s1 c = (t2, s2, .ok r) → errTruthy r.error = false →
      ∀ t3 s3 e, stop api s2 = (t3, s3, .error e) →
      (main api w args inputs).2 = 1) ∧
    (∀ f, strTruthy args.command = false → args.file = some f →
      ∀ t1 s1, start api (EngineState.mk none false none) false = (t1, s1, .ok ()) →
      ∀ t2 s2, execute_file api w s1 f = (t2, s2, .ok 1) →
      (main api w args inputs).2 = 1) ∧
    (∀ f, strTruthy args.command = false → args.file = some f →
      ∀ t1 s1, start api (EngineState.mk none false none) false = (t1, s1, .ok ()) →
      ∀ t2 s2, execute_file api w s1 f = (t2, s2, .ok 0) →
      ∀ t3 s3, stop api s2 = (t3, s3, .ok ()) →
      (main api w args inputs).2 = 0) ∧
    (strTruthy args.command = false → args.file = none → args.interactive = true →
      ∀ t1 s1, start api (EngineState.mk none false none) false = (t1, s1, .ok ()) →
      ∀ t2 s2, interactive_mode api inputs s1 = (t2, s2, .ok ()) →
      ∀ t3 s3, stop api s2 = (t3, s3, .ok ()) →
      (main api w args inputs).2 = 0) := by
  refine ⟨?_, ?_, ?_, ?_, ?_, ?_, ?_, ?_, ?_⟩
  · intro hm
    simp [main, hm]
  · intro t1 s1 e hsel hst
    simp [main, hsel, hst]
  · intro c hcmd hc t1 s1 hst t2 s2 r hex herr
    have hsel : modeSelected args = true := by simp [modeSelected, strTruthy, hcmd, hc]
    have hcm : strTruthy (some c) = true := by simp [strTruthy, hc]
    have hbody : execute_command api s1 c = (t2, s2, .ok 1) := by
      simp [execute_command, hex, herr]
    rcases hstp : stop api s2 with ⟨t3, s3, r3⟩
    cases r3 <;> simp [main, hsel, hst, hcm, hcmd, hbody, hstp]
  · intro c hcmd hc t1 s1 hst t2 s2 e hex
    have hsel : modeSelected args = true := by simp [modeSelected, strTruthy, hcmd, hc]
    have hcm : strTruthy (some c) = true := by simp [strTruthy, hc]
    have hbody : execute_command api s1 c = (t2, s2, .error e) := by
      simp [execute_command, hex]
    simp [main, hsel, hst, hcm, hcmd, hbody]
  · intro c hcmd hc t1 s1 hst t2 s2 r hex herr t3 s3 hstp
    have hsel : modeSelected args = true := by simp [modeSelected, strTruthy, hcmd, hc]
    have hcm : strTruthy (some c) = true := by simp [strTruthy, hc]
    have hbody : execute_command api s1 c = (t2, s2, .ok 0) := by
      simp [execute_command, hex, herr]
    simp [main, hsel, hst, hcm, hcmd, hbody, hstp]
  · intro c hcmd hc t1 s1 hst t2 s2 r hex herr t3 s3 e hstp
    have hsel : modeSelected args = true := by simp [modeSelected, strTruthy, hcmd, hc]
    have hcm : strTruthy (some c) = true := by simp [strTruthy, hc]
    have hbody : execute_command api s1 c = (t2, s2, .ok 0) := by
      simp [execute_command, hex, herr]
    simp [main, hsel, hst, hcm, hcmd, hbody, hstp]
  · intro f hcmF hfile t1 s1 hst t2 s2 hef
    have hsel : modeSelected args = true := by simp [modeSelected, hfile]
    rcases hstp : stop api s2 with ⟨t3, s3, r3⟩
    cases r3 <;> simp [main, hsel, hst, hcmF, hfile, hef, hstp]
  · intro f hcmF hfile t1 s1 hst t2 s2 hef t3 s3 hstp
    have hsel : modeSelected args = true := by simp [modeSelected, hfile]
    simp [main, hsel, hst, hcmF, hfile, hef, hstp]
  · intro hcmF hfileN hint t1 s1 hst t2 s2 him t3 s3 hstp
    have hsel : modeSelected args = true := by simp [modeSelected, hint]
    simp [main, hsel, hst, hcmF, hfileN, hint, him, hstp]

/-- Witness for C7: command mode with a clean run exits 0. -/
theorem cli_main_exit_witness :
    (main apiOk cliW (CliArgs.mk (some "disp(1)") none false false) []).2 = 0 :=
  (cli_main_exit apiOk cliW (CliArgs.mk (some "disp(1)") none false false) []).2.2.2.2.1
    "disp(1)" rfl (by decide) [.started 0] ⟨some 0, false, none⟩ rfl
    [.evalCall 0 "disp(1)"] ⟨some 0, false, none⟩ ⟨"ans = 2", none⟩ rfl rfl
    [.quitCall 0] ⟨none, false, none⟩ rfl

end MatlabMCP
